import Mathlib

/-!
Verification of the incident-assistant backend's monitoring loop, incident
lifecycle and analysis cascade, shallowly embedded from the JavaScript source
(`src/services/monitoring.service.js`, `src/huggins/huggingface.client.js`,
`src/api/incident.routes.js`, the service routes, and the Mongoose models).

Times are milliseconds since the epoch, modelled as `Nat`.  JavaScript floats
that only ever hold exact small fractions (error rates, confidence constants)
are modelled as `Rat`.  Mongoose documents become Lean structures; the database
becomes an explicit `DB` state threaded through the operations.
-/

namespace IncidentAssistant

/-- Structural model of JavaScript `String.prototype.includes` restricted to
the character lists of the two strings: `hasPrefixChars s p` is true when `p`
is a prefix of `s`. -/
def hasPrefixChars : List Char → List Char → Bool
  | _, [] => true
  | [], _ :: _ => false
  | c :: cs, p :: ps => c == p && hasPrefixChars cs ps

/-- True when `pat` occurs as a contiguous substring of `s`. -/
def hasSubstrChars : List Char → List Char → Bool
  | [], pat => pat.isEmpty
  | c :: cs, pat => hasPrefixChars (c :: cs) pat || hasSubstrChars cs pat

/-- JavaScript `s.includes(pat)`. -/
def jsIncludes (s pat : String) : Bool :=
  hasSubstrChars s.data pat.data

/-- JavaScript `s.toLowerCase()` (ASCII case folding, as used by the code). -/
def jsToLower (s : String) : String :=
  String.mk (s.data.map Char.toLower)

def isWhitespaceChar (c : Char) : Bool :=
  c == ' ' || c == '\n' || c == '\t' || c == '\r'

/-- JavaScript `s.trim()` (over the whitespace characters the code produces). -/
def jsTrim (s : String) : String :=
  String.mk (((s.data.dropWhile isWhitespaceChar).reverse.dropWhile
    isWhitespaceChar).reverse)

/-! ## Data model (`src/models/Incident.js`, `Log.js`, `Service.js`) -/

/-- One entry of `incidentSchema.timeline`.  The Mixed `details` payload is
not needed by any claim and is omitted; `event`, `status`, `actor` and the
timestamp are kept. -/
structure TimelineEvent where
  timestamp : Nat
  event : String
  status : String
  actor : String
  deriving Repr, DecidableEq

/-- An incident document.  `createdAt` comes from `{ timestamps: true }`;
the `metadata` subdocument is inlined as `logCount`, `errorCount`,
`lastUpdatedAt`.  Status, severity, category, source, resolvedBy are the
string enums of `incidentSchema`. -/
structure Incident where
  id : Nat
  title : String
  description : String
  serviceId : Option Nat
  serviceName : String
  severity : String
  category : String
  source : String
  status : String
  timeline : List TimelineEvent
  resolvedAt : Option Nat
  resolutionTime : Option Nat
  resolvedBy : Option String
  createdAt : Nat
  logCount : Nat
  errorCount : Nat
  lastUpdatedAt : Nat
  deriving Repr, DecidableEq

/-- A log document (`src/models/Log.js`): owning incident, message, level
(`"info" | "warning" | "error"`) and creation timestamp. -/
structure LogEntry where
  incidentId : Nat
  message : String
  level : String
  createdAt : Nat
  deriving Repr, DecidableEq

/-- A monitored service (`src/models/Service.js`), restricted to the fields
the monitor loop reads. -/
structure Service where
  id : Nat
  name : String
  url : String
  healthEndpoint : String
  enabled : Bool
  deriving Repr, DecidableEq

/-- The decoded body of a health-check response (`response.data`), as the
monitor dereferences it (`healthData?.status`, `.message`, `.responseTime`,
`.memory?.heapUsed`, `.activeFailureModes`). -/
structure HealthData where
  statusField : Option String
  message : Option String
  responseTime : Option Nat
  heapUsed : Option Nat
  activeFailureModes : List String
  deriving Repr, DecidableEq

/-- The mutable persistent state: the incident and log collections plus a
fresh-id counter standing in for ObjectId generation. -/
structure DB where
  incidents : List Incident
  logs : List LogEntry
  nextId : Nat
  deriving Repr, DecidableEq

/-! ## Health probes (`monitorExternalServices`, `router.post("/:id/test")`) -/

/-- Outcome of one HTTP GET against a health endpoint: either a response
(any HTTP status, `validateStatus: () => true`) whose decoded body may carry
a `status` field, or a network/timeout error thrown by the HTTP client. -/
inductive ProbeOutcome where
  | response (httpStatus : Nat) (bodyStatus : Option String)
  | netError (message : String)
  deriving Repr, DecidableEq

/-- Health verdict of the monitor loop's probe
(`monitoring.service.js:110`): `response.status === 200 &&
healthData?.status === "healthy"`.  A thrown error lands in the
`handleServiceUnreachable` path, i.e. is not healthy. -/
def monitorIsHealthy : ProbeOutcome → Bool
  | .response httpStatus bodyStatus =>
      httpStatus == 200 && bodyStatus == some "healthy"
  | .netError _ => false

/-- Health verdict of the manual test endpoint (`service routes,
router.post("/:id/test")`): `response.status === 200 &&
(response.data?.status === "healthy" || response.data?.status ===
"degraded")`; a thrown error is recorded with `healthy: false`. -/
def testProbeIsHealthy : ProbeOutcome → Bool
  | .response httpStatus bodyStatus =>
      httpStatus == 200 &&
        (bodyStatus == some "healthy" || bodyStatus == some "degraded")
  | .netError _ => false

/-- The spec's probe-health predicate, written from its words: healthy iff
HTTP status 200 and the decoded body reports `"healthy"` or `"degraded"`;
every other outcome (non-200, decode failure, timeout, connection error)
is unhealthy. -/
def specProbeIsHealthy : ProbeOutcome → Bool
  | .response httpStatus bodyStatus =>
      httpStatus == 200 &&
        (bodyStatus == some "healthy" || bodyStatus == some "degraded")
  | .netError _ => false

/-! ## Monitor loop reconciliation (`monitoring.service.js`) -/

/-- JavaScript `opt > bound` where `opt` may be `undefined`
(`undefined > n` is false). -/
def optGtNat (o : Option Nat) (bound : Nat) : Bool :=
  match o with
  | some v => bound < v
  | none => false

/-- The `Incident.findOne({ serviceId, status: { $in: ["open",
"investigating"] } })` filter. -/
def isOpenFor (sid : Nat) (i : Incident) : Bool :=
  i.serviceId == some sid && (i.status == "open" || i.status == "investigating")

/-- Apply an update to the incident with the given id
(`Incident.findByIdAndUpdate`). -/
def updateIncident (db : DB) (id : Nat) (f : Incident → Incident) : DB :=
  { db with incidents := db.incidents.map (fun i => if i.id == id then f i else i) }

/-- Create a log document (`Log.create`). -/
def appendLog (db : DB) (incidentId : Nat) (message level : String)
    (now : Nat) : DB :=
  { db with logs := db.logs ++ [⟨incidentId, message, level, now⟩] }

/-- The `"metadata.lastUpdatedAt" / $inc logCount,errorCount` update applied
to an existing incident on a repeated failure. -/
def bumpErrorCounters (now : Nat) (i : Incident) : Incident :=
  { i with lastUpdatedAt := now, logCount := i.logCount + 1,
           errorCount := i.errorCount + 1 }

/-- `determineSeverity(healthData, statusCode)`
(`monitoring.service.js:268`). -/
def determineSeverity (healthData : HealthData) (statusCode : Nat) : String :=
  if 500 ≤ statusCode then "high"
  else if optGtNat healthData.responseTime 2000 then "high"
  else if optGtNat healthData.heapUsed 500 then "medium"
  else "medium"

/-- `determineCategory(healthData)` (`monitoring.service.js:278`). -/
def determineCategory (healthData : HealthData) : String :=
  if optGtNat healthData.heapUsed 500 then "performance"
  else if optGtNat healthData.responseTime 2000 then "performance"
  else if healthData.activeFailureModes.contains "database" then "database"
  else if healthData.activeFailureModes.contains "auth" then "authentication"
  else if healthData.activeFailureModes.contains "network" then "network"
  else "performance"

/-- `handleServiceUnhealthy(service, healthData, statusCode)`
(`monitoring.service.js:130`): if an open/investigating incident for the
service exists, append an error log and bump its counters; otherwise create
a new incident (status `open`, one `incident_detected` timeline event) and
an error log for it. -/
def handleServiceUnhealthy (db : DB) (svc : Service) (healthData : HealthData)
    (statusCode : Nat) (now : Nat) : DB :=
  match db.incidents.find? (isOpenFor svc.id) with
  | some existing =>
      let db1 := appendLog db existing.id
        ("Health check failed: " ++ healthData.message.getD "Service unhealthy"
          ++ " (Status: " ++ toString statusCode ++ ")") "error" now
      updateIncident db1 existing.id (bumpErrorCounters now)
  | none =>
      let inc : Incident :=
        { id := db.nextId
          title := svc.name ++ " - Health Check Failed"
          description := healthData.message.getD
            ("Service returned unhealthy status (" ++ toString statusCode ++ ")")
          serviceId := some svc.id
          serviceName := svc.name
          severity := determineSeverity healthData statusCode
          category := determineCategory healthData
          source := "system"
          status := "open"
          timeline := [⟨now, "incident_detected", "open", "system"⟩]
          resolvedAt := none
          resolutionTime := none
          resolvedBy := none
          createdAt := now
          logCount := 1
          errorCount := 1
          lastUpdatedAt := now }
      let db1 : DB :=
        { db with incidents := db.incidents ++ [inc], nextId := db.nextId + 1 }
      appendLog db1 inc.id
        ("Health check failed: " ++ healthData.message.getD "Service unhealthy"
          ++ " (Response time: "
          ++ (match healthData.responseTime with
              | some rt => toString rt
              | none => "N/A") ++ "ms)") "error" now

/-- `handleServiceUnreachable(service, error)` (`monitoring.service.js:201`):
same reconciliation shape with fixed severity `high`, category `network`. -/
def handleServiceUnreachable (db : DB) (svc : Service) (errMsg : String)
    (now : Nat) : DB :=
  match db.incidents.find? (isOpenFor svc.id) with
  | some existing =>
      let db1 := appendLog db existing.id
        ("Service unreachable: " ++ errMsg) "error" now
      updateIncident db1 existing.id (bumpErrorCounters now)
  | none =>
      let inc : Incident :=
        { id := db.nextId
          title := svc.name ++ " - Service Unreachable"
          description := "Service at " ++ svc.url ++ " is not responding: " ++ errMsg
          serviceId := some svc.id
          serviceName := svc.name
          severity := "high"
          category := "network"
          source := "system"
          status := "open"
          timeline := [⟨now, "incident_detected", "open", "system"⟩]
          resolvedAt := none
          resolutionTime := none
          resolvedBy := none
          createdAt := now
          logCount := 1
          errorCount := 1
          lastUpdatedAt := now }
      let db1 : DB :=
        { db with incidents := db.incidents ++ [inc], nextId := db.nextId + 1 }
      appendLog db1 inc.id ("Service unreachable: " ++ errMsg) "error" now

/-- Number of open/investigating incidents referencing a given service. -/
def openCount (db : DB) (sid : Nat) : Nat :=
  db.incidents.countP (isOpenFor sid)

/-! ## Incident health and auto-resolution (`checkIncidentHealth`,
`autoResolveIncident`, `monitoring.service.js:290-368`) -/

/-- What one `checkIncidentHealth` pass decides for an incident.  In the
source, the auto-resolve block and the slow-degradation block run in
sequence; their guards (`recentWarnings.length < 2` versus
`recentWarnings.length > 5`) are disjoint, so at most one fires and an
if/else chain is an exact model. -/
inductive HealthCheckAction where
  | autoResolve
  | slowDegradation
  | noAction
  deriving Repr, DecidableEq

/-- `checkIncidentHealth(incident)` (`monitoring.service.js:290`), taking
as `logs` the query result `Log.find({incidentId}).sort(createdAt
desc).limit(10)`, i.e. the at-most-10 most recent logs, most recent first.
`Date.now() - t` comparisons use truncated `Nat` subtraction, which agrees
with the JavaScript comparisons for the epoch-scale timestamps involved. -/
def checkIncidentHealth (incident : Incident) (logs : List LogEntry)
    (now : Nat) : HealthCheckAction :=
  if logs.length == 0 then .noAction
  else
    let recentLogs := logs.filter (fun l => now - l.createdAt < 30 * 60 * 1000)
    let recentErrors := recentLogs.filter (fun l => l.level == "error")
    let recentWarnings := recentLogs.filter (fun l => l.level == "warning")
    if incident.status == "investigating" && recentErrors.length == 0
        && recentWarnings.length < 2
        && (match logs.find? (fun l => l.level == "error") with
            | some lastError => 30 * 60 * 1000 < now - lastError.createdAt
            | none => false) then
      .autoResolve
    else if recentErrors.length * 2 < recentWarnings.length
        && 5 < recentWarnings.length then
      .slowDegradation
    else .noAction

/-- The timeline event appended by `autoResolveIncident`. -/
def autoResolveEvent (now : Nat) : TimelineEvent :=
  ⟨now, "auto_resolve_detected", "resolved", "system"⟩

/-- `autoResolveIncident(incident)` (`monitoring.service.js:332`): status →
`auto-resolved`, resolution fields set (`resolvedBy: "ai-auto"`,
`resolutionTime: Date.now() - incident.createdAt`), timeline event appended,
informational log written. -/
def autoResolveIncident (db : DB) (incident : Incident) (now : Nat) : DB :=
  let db1 := updateIncident db incident.id (fun i =>
    { i with status := "auto-resolved"
             resolvedAt := some now
             resolutionTime := some (now - incident.createdAt)
             resolvedBy := some "ai-auto"
             timeline := i.timeline ++ [autoResolveEvent now]
             lastUpdatedAt := now })
  appendLog db1 incident.id
    "Incident auto-resolved: No errors detected for 30+ minutes" "info" now

/-! ## Engineer status update (`incident.routes.js`, PATCH `/:id/status`) -/

/-- Outcome of the PATCH `/:id/status` route. -/
inductive PatchResult where
  | ok (db : DB)
  | badRequest
  | notFound
  deriving Repr, DecidableEq

def findIncident? (db : DB) (id : Nat) : Option Incident :=
  db.incidents.find? (fun i => i.id == id)

/-- PATCH `/api/incidents/:id/status` (`incident.routes.js:74`): validates
`status ∈ {open, investigating, resolved}`, sets the status and a
`status_change` timeline event, and — only when moving to `resolved` from a
different status — sets `resolvedAt`, `resolutionTime = Date.now() -
incident.createdAt` and `resolvedBy = "engineer"`; finally writes an info
log.  (A missing/empty status fails the membership test exactly as the
route's `!status` guard does.) -/
def patchStatus (db : DB) (id : Nat) (newStatus : String) (now : Nat) :
    PatchResult :=
  if !(["open", "investigating", "resolved"].contains newStatus) then
    .badRequest
  else
    match findIncident? db id with
    | none => .notFound
    | some incident =>
        let oldStatus := incident.status
        let db1 := updateIncident db id (fun i =>
          let base :=
            { i with status := newStatus
                     lastUpdatedAt := now
                     timeline := i.timeline ++
                       [⟨now, "status_change", newStatus, "engineer"⟩] }
          if newStatus == "resolved" && !(oldStatus == "resolved") then
            { base with resolvedAt := some now
                        resolutionTime := some (now - incident.createdAt)
                        resolvedBy := some "engineer" }
          else base)
        .ok (appendLog db1 id
          ("Status updated from " ++ oldStatus ++ " to " ++ newStatus)
          "info" now)

/-! ## Trend analyzer (`analyzeTrend`, ai service, lines 783-814) -/

/-- Result of `analyzeTrend`. -/
structure TrendResult where
  isDegrading : Bool
  degradationRate : Rat
  deriving Repr, DecidableEq

/-- `analyzeTrend(logs)`: error rates over the trailing 5/15/30-minute
windows, `errors / Math.max(count, 1)`, strict monotone increase towards
the present means degrading.  Exact rational arithmetic models the
JavaScript float division (all values involved are small exact
fractions). -/
def analyzeTrend (now : Nat) (logs : List LogEntry) : TrendResult :=
  if logs.length < 3 then ⟨false, 0⟩
  else
    let last5min := logs.filter (fun l => now - l.createdAt < 5 * 60 * 1000)
    let last15min := logs.filter (fun l => now - l.createdAt < 15 * 60 * 1000)
    let last30min := logs.filter (fun l => now - l.createdAt < 30 * 60 * 1000)
    let errorRate5min : Rat :=
      ((last5min.filter (fun l => l.level == "error")).length : Rat) /
        ((max last5min.length 1 : Nat) : Rat)
    let errorRate15min : Rat :=
      ((last15min.filter (fun l => l.level == "error")).length : Rat) /
        ((max last15min.length 1 : Nat) : Rat)
    let errorRate30min : Rat :=
      ((last30min.filter (fun l => l.level == "error")).length : Rat) /
        ((max last30min.length 1 : Nat) : Rat)
    let isDegrading : Bool :=
      decide (errorRate15min < errorRate5min) &&
        decide (errorRate30min < errorRate15min)
    let degradationRate : Rat :=
      if isDegrading then errorRate5min - errorRate30min else 0
    ⟨isDegrading, degradationRate⟩

/-! ## Analysis cascade (`src/huggins/huggingface.client.js`)

The module-level mutable `nimApiAvailable` flag becomes explicit state
threaded through every operation.  The network is an environment: each
backend call is told what the HTTP layer would have produced. -/

/-- What one backend HTTP call produces: a well-formed completion, a
response missing `choices[0].message` (invalid format), an HTTP error
carrying `error.response.status`, or a network/timeout failure with no
status. -/
inductive NIMResult where
  | ok (content : String)
  | badFormat
  | httpError (status : Nat)
  | netError
  deriving Repr, DecidableEq

/-- The `catch` branch shared by all three `callNIMFor*` functions: a
401/403 clears `nimApiAvailable`; every other outcome leaves it as is. -/
def updateAvailability (nimApiAvailable : Bool) : NIMResult → Bool
  | .httpError s => if s == 401 || s == 403 then false else nimApiAvailable
  | _ => nimApiAvailable

/-- Severity parsing inside `callNIMForSeverity`: lowercase the trimmed
content, look for "high" / "medium" / "low" in that order. -/
def parseSeverityContent (content : String) : Option String :=
  let response := jsToLower (jsTrim content)
  if jsIncludes response "high" then some "high"
  else if jsIncludes response "medium" then some "medium"
  else if jsIncludes response "low" then some "low"
  else none

/-- `callNIMForSeverity(model, prompt)` as state transformer plus result:
returns the new availability flag and the parsed severity (or `none`,
triggering the next cascade stage). -/
def callNIMForSeverity (nimApiAvailable : Bool) (result : NIMResult) :
    Bool × Option String :=
  match result with
  | .ok content => (nimApiAvailable, parseSeverityContent content)
  | .badFormat => (nimApiAvailable, none)
  | .httpError s => (updateAvailability nimApiAvailable (.httpError s), none)
  | .netError => (nimApiAvailable, none)

/-- Category parsing inside `callNIMForCategory`:
`validCategories.find(cat => response.includes(cat))`. -/
def parseCategoryContent (content : String) : Option String :=
  let response := jsToLower (jsTrim content)
  ["database", "network", "authentication", "deployment",
    "performance"].find? (fun cat => jsIncludes response cat)

/-- `callNIMForCategory(model, prompt)`. -/
def callNIMForCategory (nimApiAvailable : Bool) (result : NIMResult) :
    Bool × Option String :=
  match result with
  | .ok content => (nimApiAvailable, parseCategoryContent content)
  | .badFormat => (nimApiAvailable, none)
  | .httpError s => (updateAvailability nimApiAvailable (.httpError s), none)
  | .netError => (nimApiAvailable, none)

/-- `analyzeSeverityFallback(text)` (`huggingface.client.js:152`):
case-insensitive keyword rules; non-string / empty text yields "low". -/
def analyzeSeverityFallback (text : String) : String :=
  if text == "" then "low"
  else
    let lowerText := jsToLower text
    if jsIncludes lowerText "critical" || jsIncludes lowerText "down"
        || jsIncludes lowerText "failure" || jsIncludes lowerText "outage"
        || jsIncludes lowerText "severe" || jsIncludes lowerText "emergency"
        || jsIncludes lowerText "crash" || jsIncludes lowerText "unavailable" then
      "high"
    else if jsIncludes lowerText "error" || jsIncludes lowerText "warning"
        || jsIncludes lowerText "issue" || jsIncludes lowerText "problem"
        || jsIncludes lowerText "slow" || jsIncludes lowerText "degraded" then
      "medium"
    else "low"

/-- `analyzeCategoryFallback(text)` (`huggingface.client.js:308`):
case-insensitive keyword rules with default "performance". -/
def analyzeCategoryFallback (text : String) : String :=
  if text == "" then "performance"
  else
    let lowerText := jsToLower text
    if jsIncludes lowerText "database" || jsIncludes lowerText "db "
        || jsIncludes lowerText "sql" || jsIncludes lowerText "query"
        || jsIncludes lowerText "mongodb" || jsIncludes lowerText "postgres"
        || jsIncludes lowerText "mysql" || jsIncludes lowerText "connection pool"
        || jsIncludes lowerText "transaction" then
      "database"
    else if jsIncludes lowerText "auth" || jsIncludes lowerText "login"
        || jsIncludes lowerText "password" || jsIncludes lowerText "credential"
        || jsIncludes lowerText "token" || jsIncludes lowerText "session"
        || jsIncludes lowerText "unauthorized" || jsIncludes lowerText "forbidden"
        || jsIncludes lowerText "jwt" then
      "authentication"
    else if jsIncludes lowerText "network" || jsIncludes lowerText "connection"
        || jsIncludes lowerText "timeout" || jsIncludes lowerText "dns"
        || jsIncludes lowerText "http" || jsIncludes lowerText "tcp"
        || jsIncludes lowerText "socket" || jsIncludes lowerText "packet"
        || jsIncludes lowerText "latency" then
      "network"
    else if jsIncludes lowerText "cpu" || jsIncludes lowerText "memory"
        || jsIncludes lowerText "performance" || jsIncludes lowerText "slow"
        || jsIncludes lowerText "throughput" || jsIncludes lowerText "resource"
        || jsIncludes lowerText "load" || jsIncludes lowerText "spike" then
      "performance"
    else if jsIncludes lowerText "deploy" || jsIncludes lowerText "build"
        || jsIncludes lowerText "ci/cd" || jsIncludes lowerText "pipeline"
        || jsIncludes lowerText "container" || jsIncludes lowerText "docker"
        || jsIncludes lowerText "kubernetes" || jsIncludes lowerText "k8s" then
      "deployment"
    else "performance"

/-- Outcome of one `analyzeSeverity` / `analyzeCategory` invocation: new
availability flag, classification result, and how many backend HTTP calls
were made (0, 1 or 2). -/
structure CascadeOutcome where
  nimApiAvailable : Bool
  result : String
  backendCalls : Nat
  deriving Repr, DecidableEq

/-- `analyzeSeverity(text)` (`huggingface.client.js:102`): skip both
backends when the flag is down or no API key is configured; otherwise try
primary then secondary, falling back to the keyword rules. -/
def analyzeSeverity (apiKey : String) (nimApiAvailable : Bool)
    (text : String) (primary secondary : NIMResult) : CascadeOutcome :=
  if !nimApiAvailable || apiKey == "" then
    ⟨nimApiAvailable, analyzeSeverityFallback text, 0⟩
  else if text == "" then
    ⟨nimApiAvailable, analyzeSeverityFallback text, 0⟩
  else
    match callNIMForSeverity nimApiAvailable primary with
    | (st1, some s) => ⟨st1, s, 1⟩
    | (st1, none) =>
        match callNIMForSeverity st1 secondary with
        | (st2, some s) => ⟨st2, s, 2⟩
        | (st2, none) => ⟨st2, analyzeSeverityFallback text, 2⟩

/-- `analyzeCategory(text)` (`huggingface.client.js:251`). -/
def analyzeCategory (apiKey : String) (nimApiAvailable : Bool)
    (text : String) (primary secondary : NIMResult) : CascadeOutcome :=
  if !nimApiAvailable || apiKey == "" then
    ⟨nimApiAvailable, analyzeCategoryFallback text, 0⟩
  else if text == "" then
    ⟨nimApiAvailable, analyzeCategoryFallback text, 0⟩
  else
    match callNIMForCategory nimApiAvailable primary with
    | (st1, some s) => ⟨st1, s, 1⟩
    | (st1, none) =>
        match callNIMForCategory st1 secondary with
        | (st2, some s) => ⟨st2, s, 2⟩
        | (st2, none) => ⟨st2, analyzeCategoryFallback text, 2⟩

/-- Lowercase a character list (for case-insensitive matching). -/
def lowerChars (l : List Char) : List Char :=
  l.map Char.toLower

/-- Drop everything up to and including the first case-insensitive
occurrence of `pat`, or `none` when `pat` does not occur. -/
def dropAfterSubstrCI : List Char → List Char → Option (List Char)
  | [], pat => if pat.isEmpty then some [] else none
  | c :: cs, pat =>
      if hasPrefixChars (lowerChars (c :: cs)) (lowerChars pat) then
        some ((c :: cs).drop pat.length)
      else dropAfterSubstrCI cs pat

/-- `parseRootCauseResponse(response)` (`huggingface.client.js:523`): look
for a case-insensitive `ROOT_CAUSE:` marker, skip whitespace, capture up
to the first newline; confidence 0.85 for narratives longer than 50
characters, 0.75 otherwise.  Without the marker, take the first 300
characters of the trimmed response when longer than 20 characters. -/
def parseRootCauseResponse (response : String) : Option (String × Rat) :=
  let noMarker : Option (String × Rat) :=
    let rootCause := String.mk ((jsTrim response).data.take 300)
    if 20 < rootCause.data.length then some (rootCause, (75 : Rat) / 100)
    else none
  match dropAfterSubstrCI response.data "ROOT_CAUSE:".data with
  | some rest =>
      let captured := (rest.dropWhile isWhitespaceChar).takeWhile
        (fun c => c != '\n')
      if captured.isEmpty then noMarker
      else
        let rootCause := jsTrim (String.mk captured)
        some (rootCause,
          if 50 < rootCause.data.length then (85 : Rat) / 100
          else (75 : Rat) / 100)
  | none => noMarker

/-- `callNIMForRootCause(model, prompt)`: returns the trimmed raw content
on success; the availability flag is updated by the shared catch branch. -/
def callNIMForRootCause (nimApiAvailable : Bool) (result : NIMResult) :
    Bool × Option String :=
  match result with
  | .ok content => (nimApiAvailable, some (jsTrim content))
  | .badFormat => (nimApiAvailable, none)
  | .httpError s => (updateAvailability nimApiAvailable (.httpError s), none)
  | .netError => (nimApiAvailable, none)

/-- The joined lowercased log messages the root-cause fallback matches
against (`logs.map(l => l.message.toLowerCase()).join(" ")`). -/
def logTextOf (logs : List LogEntry) : String :=
  String.intercalate " " (logs.map (fun l => jsToLower l.message))

/-- `analyzeRootCauseFallback(incident, logs)`
(`huggingface.client.js:550`): joined lowercased log messages are matched
against the rule chain timeout/connection → database → resource →
authentication → cascading-failure, first match winning, with the
per-rule confidence constants 0.85 / 0.80 / 0.75 / 0.70 / 0.65 and the
0.5-confidence unknown default. -/
def analyzeRootCauseFallback (logs : List LogEntry) : String × Rat :=
  let errorLogs := logs.filter (fun l => l.level == "error")
  let warningLogs := logs.filter (fun l => l.level == "warning")
  let logText := logTextOf logs
  if jsIncludes logText "timeout" || jsIncludes logText "connection" then
    ("Network/Connection timeout - Possible network instability or resource exhaustion",
      (85 : Rat) / 100)
  else if jsIncludes logText "database" || jsIncludes logText "db"
      || jsIncludes logText "query" then
    ("Database performance issue - Possible query optimization needed or connection pool exhaustion",
      (80 : Rat) / 100)
  else if jsIncludes logText "cpu" || jsIncludes logText "memory"
      || jsIncludes logText "resource" then
    ("Resource exhaustion - CPU or memory limits reached", (75 : Rat) / 100)
  else if jsIncludes logText "auth" || jsIncludes logText "authentication"
      || jsIncludes logText "login" then
    ("Authentication system failure - Possible credential issues or service outage",
      (70 : Rat) / 100)
  else if warningLogs.length * 2 < errorLogs.length then
    ("Cascading failures - Multiple error patterns detected", (65 : Rat) / 100)
  else
    ("Unknown - Insufficient data to determine root cause", (50 : Rat) / 100)

/-- Outcome of one `analyzeRootCause` invocation. -/
structure RootCauseOutcome where
  nimApiAvailable : Bool
  rootCause : String
  rootCauseProbability : Rat
  backendCalls : Nat
  deriving Repr, DecidableEq

/-- `analyzeRootCause(incident, logs)` (`huggingface.client.js:448`). -/
def analyzeRootCause (apiKey : String) (nimApiAvailable : Bool)
    (logs : List LogEntry) (primary secondary : NIMResult) :
    RootCauseOutcome :=
  if !nimApiAvailable || apiKey == "" then
    let fb := analyzeRootCauseFallback logs
    ⟨nimApiAvailable, fb.1, fb.2, 0⟩
  else
    match callNIMForRootCause nimApiAvailable primary with
    | (st1, some content) =>
        match parseRootCauseResponse content with
        | some (rc, p) => ⟨st1, rc, p, 1⟩
        | none =>
            match callNIMForRootCause st1 secondary with
            | (st2, some content2) =>
                match parseRootCauseResponse content2 with
                | some (rc, p) => ⟨st2, rc, p, 2⟩
                | none =>
                    let fb := analyzeRootCauseFallback logs
                    ⟨st2, fb.1, fb.2, 2⟩
            | (st2, none) =>
                let fb := analyzeRootCauseFallback logs
                ⟨st2, fb.1, fb.2, 2⟩
    | (st1, none) =>
        match callNIMForRootCause st1 secondary with
        | (st2, some content2) =>
            match parseRootCauseResponse content2 with
            | some (rc, p) => ⟨st2, rc, p, 2⟩
            | none =>
                let fb := analyzeRootCauseFallback logs
                ⟨st2, fb.1, fb.2, 2⟩
        | (st2, none) =>
            let fb := analyzeRootCauseFallback logs
            ⟨st2, fb.1, fb.2, 2⟩

/-! ## Read-only analysis entry point (`analyzeIncidentReadOnly`, the ai
service; `runAnalysis` of the spec's control surface) -/

/-- What the HTTP layer would answer for each of the (at most) six backend
calls one full analysis can make. -/
structure BackendEnv where
  sevPrimary : NIMResult
  sevSecondary : NIMResult
  catPrimary : NIMResult
  catSecondary : NIMResult
  rcPrimary : NIMResult
  rcSecondary : NIMResult
  deriving Repr, DecidableEq

/-- The free-text context built from the incident and its logs:
`` `\n        ${title}.\n        ${description}.\n        ${messages
joined by " "}\n    `.trim() ``. -/
def buildAnalysisText (incident : Incident) (logs : List LogEntry) : String :=
  jsTrim ("\n        " ++ incident.title ++ ".\n        "
    ++ incident.description ++ ".\n        "
    ++ String.intercalate " " (logs.map (fun l => l.message)) ++ "\n    ")

/-- The analysis fields the claims are about, out of the larger result
object `analyzeIncidentReadOnly` assembles. -/
structure AnalysisResult where
  aiSeverity : String
  aiCategory : String
  rootCause : String
  rootCauseProbability : Rat
  trendAnalysis : TrendResult
  nimApiAvailable : Bool
  deriving Repr, DecidableEq

/-- The successful-path body of `analyzeIncidentReadOnly`: the three
cascade stages run in order, the availability flag threading through them
exactly as the module-level variable does. -/
def analysisOutcome (apiKey : String) (nimApiAvailable : Bool)
    (incident : Incident) (logs : List LogEntry) (env : BackendEnv)
    (now : Nat) : AnalysisResult :=
  let text := buildAnalysisText incident logs
  let sev := analyzeSeverity apiKey nimApiAvailable text
    env.sevPrimary env.sevSecondary
  let cat := analyzeCategory apiKey sev.nimApiAvailable text
    env.catPrimary env.catSecondary
  let rc := analyzeRootCause apiKey cat.nimApiAvailable logs
    env.rcPrimary env.rcSecondary
  ⟨sev.result, cat.result, rc.rootCause, rc.rootCauseProbability,
    analyzeTrend now logs, rc.nimApiAvailable⟩

/-- `analyzeIncidentReadOnly(incidentId)` after the incident and its logs
have been fetched: build the text, reject when shorter than 10
characters, then run the three cascade stages. -/
def analyzeIncidentReadOnly (apiKey : String) (nimApiAvailable : Bool)
    (incident : Incident) (logs : List LogEntry) (env : BackendEnv)
    (now : Nat) : Except String AnalysisResult :=
  let text := buildAnalysisText incident logs
  if text == "" || text.length < 10 then
    .error "Insufficient data for analysis"
  else
    .ok (analysisOutcome apiKey nimApiAvailable incident logs env now)

/-! ## Synthetic demo events (`simulateSystemEvents`,
`monitoring.service.js:420`, gated in `performHealthCheck`, lines 73-76) -/

/-- The three `eventTypes` entries: the data of the incident
`simulateSystemEvents` would create for each pick, plus its log message.
`cpuValue` models `Math.floor(Math.random() * 20) + 85`. -/
def syntheticIncident (pick : Fin 3) (cpuValue : Nat) (now : Nat)
    (id : Nat) : Incident × String :=
  let base : Incident :=
    { id := id
      title := ""
      description := ""
      serviceId := none
      serviceName := ""
      severity := ""
      category := ""
      source := "system"
      status := "open"
      timeline := [⟨now, "incident_detected", "open", "system"⟩]
      resolvedAt := none
      resolutionTime := none
      resolvedBy := none
      createdAt := now
      logCount := 1
      errorCount := 1
      lastUpdatedAt := now }
  match pick with
  | 0 =>
      ({ base with
          title := "High CPU usage detected"
          description := "CPU usage reached " ++ toString cpuValue ++ "%"
          severity := "high"
          category := "performance" },
        "CPU usage exceeded threshold: " ++ toString cpuValue ++ "%")
  | 1 =>
      ({ base with
          title := "Database timeout detected"
          description := "Database requests are timing out"
          severity := "high"
          category := "database" },
        "Database connection timeout detected")
  | 2 =>
      ({ base with
          title := "Authentication failures detected"
          description := "Multiple authentication errors occurred"
          severity := "medium"
          category := "authentication" },
        "Multiple invalid authentication attempts detected")

/-- `simulateSystemEvents()` (`monitoring.service.js:420`): suppressed when
any incident was created within the last 10 minutes; fires with probability
0.1 (`Math.random() > 0.1` skips, `rand` models the draw); otherwise
creates the randomly picked synthetic incident plus its error log. -/
def simulateSystemEvents (db : DB) (now : Nat) (rand : Rat) (pick : Fin 3)
    (cpuValue : Nat) : DB :=
  let recentIncidents := db.incidents.filter
    (fun i => now - 10 * 60 * 1000 ≤ i.createdAt)
  if 0 < recentIncidents.length then db
  else if (1 : Rat) / 10 < rand then db
  else
    let ev := syntheticIncident pick cpuValue now db.nextId
    appendLog { db with incidents := db.incidents ++ [ev.1],
                        nextId := db.nextId + 1 }
      ev.1.id ev.2 "error" now

/-- The `performHealthCheck` gate (`monitoring.service.js:74`):
`process.env.ENABLE_RANDOM_EVENTS !== "false"`; `none` models an unset
variable. -/
def randomEventsEnabled (envVar : Option String) : Bool :=
  !(envVar == some "false")

/-- The random-event step of one monitoring cycle: `simulateSystemEvents`
runs unless `ENABLE_RANDOM_EVENTS` is the string `"false"`. -/
def cycleRandomEventStep (envVar : Option String) (db : DB) (now : Nat)
    (rand : Rat) (pick : Fin 3) (cpuValue : Nat) : DB :=
  if randomEventsEnabled envVar then
    simulateSystemEvents db now rand pick cpuValue
  else db

/-! ## Shared lemmas about the reconciliation operations -/

theorem openCount_appendLog (db : DB) (incId : Nat) (m lv : String)
    (now sid : Nat) :
    openCount (appendLog db incId m lv now) sid = openCount db sid := rfl

theorem isOpenFor_bump (sid now : Nat) (i : Incident) :
    isOpenFor sid (bumpErrorCounters now i) = isOpenFor sid i := rfl

theorem openCount_update_bump (db : DB) (id now sid : Nat) :
    openCount (updateIncident db id (bumpErrorCounters now)) sid
      = openCount db sid := by
  unfold openCount updateIncident
  rw [List.countP_map]
  exact List.countP_congr (fun i _ => by
    show (isOpenFor sid (if i.id == id then bumpErrorCounters now i else i))
        = true ↔ isOpenFor sid i = true
    split <;> exact Iff.rfl)

theorem countP_append_new_open (db : DB) (svc sid : Nat) (inc : Incident)
    (hsid : inc.serviceId = some svc)
    (hnone : db.incidents.find? (isOpenFor svc) = none)
    (h : openCount db sid ≤ 1) :
    List.countP (isOpenFor sid) (db.incidents ++ [inc]) ≤ 1 := by
  unfold openCount at h
  rw [List.countP_append]
  have hsingle : List.countP (isOpenFor sid) [inc] ≤ 1 := by
    cases h' : isOpenFor sid inc <;> simp [List.countP_cons, h']
  by_cases hEq : sid = svc
  · subst hEq
    have h0 : List.countP (isOpenFor sid) db.incidents = 0 :=
      List.countP_eq_zero.mpr (fun a ha => (List.find?_eq_none.mp hnone) a ha)
    omega
  · have hfalse : isOpenFor sid inc = false := by
      simp only [isOpenFor, hsid, Bool.and_eq_false_iff]
      left
      simp [beq_iff_eq]
      exact fun hc => hEq hc.symm
    have h0 : List.countP (isOpenFor sid) [inc] = 0 := by
      simp [List.countP_cons, hfalse]
    omega

/-- C1: the monitor loop's reconciliation handlers preserve the
at-most-one-open-incident-per-service invariant: for any service id, if at
most one open/investigating incident references it before
`handleServiceUnhealthy` / `handleServiceUnreachable` runs, the same holds
afterwards (an existing open incident is updated in place; a new one is
created only when none exists). -/
theorem monitorHandlers_preserve_at_most_one_open
    (db : DB) (svc : Service) (healthData : HealthData) (statusCode : Nat)
    (errMsg : String) (now sid : Nat) (h : openCount db sid ≤ 1) :
    openCount (handleServiceUnhealthy db svc healthData statusCode now) sid ≤ 1
      ∧ openCount (handleServiceUnreachable db svc errMsg now) sid ≤ 1 := by
  constructor
  · unfold handleServiceUnhealthy
    cases hfind : db.incidents.find? (isOpenFor svc.id) with
    | some existing =>
        rw [openCount_update_bump, openCount_appendLog]
        exact h
    | none =>
        rw [openCount_appendLog]
        exact countP_append_new_open db svc.id sid _ rfl hfind h
  · unfold handleServiceUnreachable
    cases hfind : db.incidents.find? (isOpenFor svc.id) with
    | some existing =>
        rw [openCount_update_bump, openCount_appendLog]
        exact h
    | none =>
        rw [openCount_appendLog]
        exact countP_append_new_open db svc.id sid _ rfl hfind h

/-- A concrete open incident referencing service 7, used by witnesses. -/
def sampleIncidentOpen7 : Incident :=
  { id := 0, title := "api - Health Check Failed", description := "down",
    serviceId := some 7, serviceName := "api", severity := "high",
    category := "network", source := "system", status := "open",
    timeline := [⟨0, "incident_detected", "open", "system"⟩],
    resolvedAt := none, resolutionTime := none, resolvedBy := none,
    createdAt := 0, logCount := 1, errorCount := 1, lastUpdatedAt := 0 }

/-- A concrete database holding exactly that one incident. -/
def sampleDB7 : DB :=
  { incidents := [sampleIncidentOpen7], logs := [], nextId := 1 }

/-- A concrete monitored service with id 7. -/
def sampleService7 : Service :=
  { id := 7, name := "api", url := "http://s", healthEndpoint := "/health",
    enabled := true }

/-- A concrete decoded health body with no optional fields. -/
def sampleHealthData : HealthData :=
  { statusField := none, message := none, responseTime := none,
    heapUsed := none, activeFailureModes := [] }

/-- C1 witness: a concrete run of the unhealthy handler from a database
already holding one open incident for service 7. -/
theorem monitorHandlers_preserve_at_most_one_open_witness :
    openCount sampleDB7 7 ≤ 1 ∧
    openCount (handleServiceUnhealthy sampleDB7 sampleService7
      sampleHealthData 503 1000) 7 ≤ 1 :=
  ⟨by decide,
    (monitorHandlers_preserve_at_most_one_open sampleDB7 sampleService7
      sampleHealthData 503 "err" 1000 7 (by decide)).1⟩

/-- The error log message the unhealthy handler appends to an existing
incident. -/
def unhealthyUpdateMessage (healthData : HealthData) (statusCode : Nat) :
    String :=
  "Health check failed: " ++ healthData.message.getD "Service unhealthy"
    ++ " (Status: " ++ toString statusCode ++ ")"

/-- C2 counterexample: run the unhealthy handler on a database holding one
open incident for the failing service.  Contrary to the claim, the
pre-existing incident is not transitioned to `closed` (it stays `open`),
no incident at all carries status `closed`, no `incident_closed` timeline
event is appended anywhere, and no new incident is created. -/
theorem close_before_create_counterexample :
    (∀ i ∈ (handleServiceUnhealthy sampleDB7 sampleService7 sampleHealthData
        503 1000).incidents, ¬ i.status = "closed") ∧
    (∃ i ∈ (handleServiceUnhealthy sampleDB7 sampleService7 sampleHealthData
        503 1000).incidents, i.id = 0 ∧ i.status = "open") ∧
    (∀ i ∈ (handleServiceUnhealthy sampleDB7 sampleService7 sampleHealthData
        503 1000).incidents, ∀ e ∈ i.timeline, ¬ e.event = "incident_closed") ∧
    (handleServiceUnhealthy sampleDB7 sampleService7 sampleHealthData
        503 1000).incidents.length = sampleDB7.incidents.length := by
  decide

/-- C2 amended: when a health check fails, the handler never closes
anything.  If an open/investigating incident for the service exists, every
incident keeps its id and status, the only change to the incident list is
that incident's bumped counters, and exactly one error log for it is
appended; a new incident (status `open`, `incident_detected` timeline
event) is created only when no open/investigating incident exists. -/
theorem handleServiceUnhealthy_updates_or_creates (db : DB) (svc : Service)
    (healthData : HealthData) (statusCode : Nat) (now : Nat) :
    match db.incidents.find? (isOpenFor svc.id) with
    | some existing =>
        (handleServiceUnhealthy db svc healthData statusCode now).incidents.map
            (fun i => (i.id, i.status))
          = db.incidents.map (fun i => (i.id, i.status)) ∧
        (handleServiceUnhealthy db svc healthData statusCode now).logs
          = db.logs ++ [⟨existing.id,
              unhealthyUpdateMessage healthData statusCode, "error", now⟩]
    | none =>
        ∃ inc : Incident,
          (handleServiceUnhealthy db svc healthData statusCode now).incidents
            = db.incidents ++ [inc] ∧
          inc.status = "open" ∧ inc.serviceId = some svc.id ∧
          inc.timeline = [⟨now, "incident_detected", "open", "system"⟩] := by
  cases hfind : db.incidents.find? (isOpenFor svc.id) with
  | some existing =>
      simp only
      refine ⟨?_, ?_⟩
      · simp only [handleServiceUnhealthy, hfind, appendLog, updateIncident,
          List.map_map]
        exact List.map_congr_left (fun i _ => by
          by_cases hc : i.id = existing.id <;>
            simp [hc, bumpErrorCounters])
      · simp only [handleServiceUnhealthy, hfind, appendLog, updateIncident,
          unhealthyUpdateMessage]
  | none =>
      simp only [handleServiceUnhealthy, hfind, appendLog]
      exact ⟨_, rfl, rfl, rfl, rfl⟩

/-- C3 counterexample: a probe response with HTTP 200 and body status
`"degraded"` is classified unhealthy by the monitor loop, although the
claim's healthiness predicate calls it healthy. -/
theorem probe_healthy_claim_counterexample :
    monitorIsHealthy (.response 200 (some "degraded")) = false ∧
    specProbeIsHealthy (.response 200 (some "degraded")) = true := by
  decide

/-- C3 amended: the manual test endpoint's verdict agrees with the claimed
predicate (200 and body status healthy-or-degraded) for every probe
outcome, but the monitor loop's verdict is healthy exactly for HTTP 200
with body status `"healthy"`; every error outcome is unhealthy in both. -/
theorem probe_health_verdicts (o : ProbeOutcome) :
    testProbeIsHealthy o = specProbeIsHealthy o ∧
    (monitorIsHealthy o = true ↔ o = .response 200 (some "healthy")) := by
  cases o <;>
    simp [monitorIsHealthy, testProbeIsHealthy, specProbeIsHealthy]

/-- A concrete incident under investigation, for the auto-resolution
scenarios. -/
def sampleInvestigating : Incident :=
  { sampleIncidentOpen7 with id := 3, status := "investigating" }

/-- C4 counterexample: an investigating incident whose only (recent) log is
informational.  No error-level log occurred within the last 30 minutes and
there are zero recent warnings, so the claim demands an auto-resolution,
but `checkIncidentHealth` takes no action because no error-level log exists
at all (`lastErrorTime` is undefined). -/
theorem auto_resolve_claim_counterexample :
    sampleInvestigating.status = "investigating" ∧
    (∀ l ∈ [(⟨3, "service started", "info", 1740000⟩ : LogEntry)],
      ¬ l.level = "error") ∧
    (List.countP (fun l => (l.level == "warning")
        && decide (1800000 - l.createdAt < 1800000))
      [(⟨3, "service started", "info", 1740000⟩ : LogEntry)]) < 2 ∧
    checkIncidentHealth sampleInvestigating
      [(⟨3, "service started", "info", 1740000⟩ : LogEntry)] 1800000
      = .noAction := by
  decide

/-- C4 amended: auto-resolution additionally requires that an error-level
log exists among the fetched most-recent logs and that the most recent such
error is strictly older than 30 minutes.  Under those conditions (status
`investigating`, no error within the 30-minute window, fewer than two
recent warnings, a stale most-recent error) `checkIncidentHealth` decides
to auto-resolve, and `autoResolveIncident` then sets status
`auto-resolved`, `resolvedAt = now`, `resolutionTime = now − createdAt`,
`resolvedBy = "ai-auto"`, appends the `auto_resolve_detected` timeline
event and writes the informational log. -/
theorem investigating_auto_resolution (inc : Incident) (logs : List LogEntry)
    (db : DB) (now : Nat) (e : LogEntry)
    (hst : inc.status = "investigating")
    (hne : logs ≠ [])
    (hnorecent : ∀ l ∈ logs, now - l.createdAt < 1800000 → ¬ l.level = "error")
    (hwarn : (List.countP (fun l => (l.level == "warning")
        && decide (now - l.createdAt < 1800000)) logs) < 2)
    (hfind : logs.find? (fun l => l.level == "error") = some e)
    (hold : 1800000 < now - e.createdAt) :
    checkIncidentHealth inc logs now = .autoResolve ∧
    (autoResolveIncident db inc now).logs = db.logs ++
      [⟨inc.id, "Incident auto-resolved: No errors detected for 30+ minutes",
        "info", now⟩] ∧
    ∀ i ∈ (autoResolveIncident db inc now).incidents, i.id = inc.id →
      i.status = "auto-resolved" ∧ i.resolvedAt = some now ∧
      i.resolutionTime = some (now - inc.createdAt) ∧
      i.resolvedBy = some "ai-auto" ∧
      ∃ ev ∈ i.timeline, ev.event = "auto_resolve_detected" := by
  refine ⟨?_, rfl, ?_⟩
  · unfold checkIncidentHealth
    have hlen : (logs.length == 0) = false := by
      cases logs with
      | nil => exact absurd rfl hne
      | cons a l => rfl
    rw [hlen]
    simp only [Bool.false_eq_true, if_false]
    have herr : ((logs.filter (fun l => now - l.createdAt < 30 * 60 * 1000)).filter
        (fun l => l.level == "error")) = [] := by
      rw [List.filter_eq_nil_iff]
      intro a ha
      have hmem := List.mem_filter.mp ha
      have hrec : now - a.createdAt < 1800000 := by
        have := hmem.2
        simpa using this
      simpa using hnorecent a hmem.1 hrec
    have hwarn2 : ((logs.filter (fun l => now - l.createdAt < 30 * 60 * 1000)).filter
        (fun l => l.level == "warning")).length < 2 := by
      rw [← List.countP_eq_length_filter, List.countP_filter]
      simpa using hwarn
    rw [hst]
    simp only [herr, hfind, List.length_nil, hwarn2, hold]
    simp
  · intro i hi hid
    have hi2 : i ∈ (updateIncident db inc.id (fun j =>
        { j with status := "auto-resolved"
                 resolvedAt := some now
                 resolutionTime := some (now - inc.createdAt)
                 resolvedBy := some "ai-auto"
                 timeline := j.timeline ++ [autoResolveEvent now]
                 lastUpdatedAt := now })).incidents := hi
    rcases List.mem_map.mp hi2 with ⟨j, hj, rfl⟩
    by_cases hc : j.id = inc.id
    · simp only [hc, beq_self_eq_true, if_true]
      refine ⟨trivial, trivial, trivial, trivial, ?_⟩
      exact ⟨autoResolveEvent now, by simp, rfl⟩
    · exact absurd (by simpa [hc] using hid) hc

/-- C4 witness: a concrete investigating incident whose single error log is
over 30 minutes old auto-resolves. -/
theorem investigating_auto_resolution_witness :
    checkIncidentHealth sampleInvestigating
      [(⟨3, "db error", "error", 1000000⟩ : LogEntry)] 4000000
      = .autoResolve :=
  (investigating_auto_resolution sampleInvestigating
    [(⟨3, "db error", "error", 1000000⟩ : LogEntry)] sampleDB7 4000000
    ⟨3, "db error", "error", 1000000⟩ (by decide) (by decide) (by decide)
    (by decide) (by decide) (by decide)).1

/-! ## Process traces of analysis calls (for the sticky-flag property) -/

/-- One on-demand analysis invocation, with the answers the HTTP layer
would give to its (at most two) backend calls. -/
inductive AnalysisCall where
  | severity (text : String) (primary secondary : NIMResult)
  | category (text : String) (primary secondary : NIMResult)
  | rootCause (logs : List LogEntry) (primary secondary : NIMResult)
  deriving Repr, DecidableEq

/-- Run one analysis invocation; return the new availability flag and how
many backend HTTP calls were made. -/
def stepCall (apiKey : String) (st : Bool) : AnalysisCall → Bool × Nat
  | .severity text p s =>
      let o := analyzeSeverity apiKey st text p s
      (o.nimApiAvailable, o.backendCalls)
  | .category text p s =>
      let o := analyzeCategory apiKey st text p s
      (o.nimApiAvailable, o.backendCalls)
  | .rootCause logs p s =>
      let o := analyzeRootCause apiKey st logs p s
      (o.nimApiAvailable, o.backendCalls)

/-- Run a sequence of analysis invocations, collecting the backend-call
count of each. -/
def runCalls (apiKey : String) (st : Bool) : List AnalysisCall → Bool × List Nat
  | [] => (st, [])
  | c :: cs =>
      let r1 := stepCall apiKey st c
      let r2 := runCalls apiKey r1.1 cs
      (r2.1, r1.2 :: r2.2)

theorem stepCall_flag_down (apiKey : String) (c : AnalysisCall) :
    stepCall apiKey false c = (false, 0) := by
  cases c <;> rfl

theorem runCalls_flag_down (apiKey : String) (calls : List AnalysisCall) :
    (runCalls apiKey false calls).1 = false ∧
    ∀ n ∈ (runCalls apiKey false calls).2, n = 0 := by
  induction calls with
  | nil => exact ⟨rfl, by simp [runCalls]⟩
  | cons c cs ih =>
      simp only [runCalls, stepCall_flag_down]
      exact ⟨ih.1, by
        intro n hn
        rcases List.mem_cons.mp hn with h | h
        · exact h
        · exact ih.2 n h⟩

theorem analyzeSeverity_401_flag (key text : String) (sec : NIMResult)
    (hk : (key == "") = false) (ht : (text == "") = false) :
    (analyzeSeverity key true text (.httpError 401) sec).nimApiAvailable
      = false := by
  simp only [analyzeSeverity, Bool.not_true, Bool.false_or, hk,
    Bool.false_eq_true, if_false, ht, callNIMForSeverity, updateAvailability]
  cases sec with
  | ok c =>
      cases hpc : parseSeverityContent c <;>
        simp [callNIMForSeverity, hpc]
  | badFormat => simp [callNIMForSeverity]
  | httpError m => simp [callNIMForSeverity, updateAvailability]
  | netError => simp [callNIMForSeverity]

theorem analyzeSeverity_backendCalls_pos (key text : String)
    (p sec : NIMResult) (hk : (key == "") = false)
    (ht : (text == "") = false) :
    1 ≤ (analyzeSeverity key true text p sec).backendCalls := by
  simp only [analyzeSeverity, Bool.not_true, Bool.false_or, hk,
    Bool.false_eq_true, if_false, ht]
  cases p with
  | ok c =>
      cases hpc : parseSeverityContent c with
      | some s1 => simp [callNIMForSeverity, hpc]
      | none =>
          simp only [callNIMForSeverity, hpc]
          cases sec with
          | ok c2 =>
              cases hpc2 : parseSeverityContent c2 <;>
                simp [callNIMForSeverity, hpc2]
          | badFormat => simp [callNIMForSeverity]
          | httpError m => simp [callNIMForSeverity]
          | netError => simp [callNIMForSeverity]
  | badFormat =>
      simp only [callNIMForSeverity]
      cases sec with
      | ok c2 =>
          cases hpc2 : parseSeverityContent c2 <;>
            simp [callNIMForSeverity, hpc2]
      | badFormat => simp [callNIMForSeverity]
      | httpError m => simp [callNIMForSeverity]
      | netError => simp [callNIMForSeverity]
  | httpError m =>
      simp only [callNIMForSeverity]
      cases sec with
      | ok c2 =>
          cases hpc2 : parseSeverityContent c2 <;>
            simp [callNIMForSeverity, hpc2]
      | badFormat => simp [callNIMForSeverity]
      | httpError m2 => simp [callNIMForSeverity]
      | netError => simp [callNIMForSeverity]
  | netError =>
      simp only [callNIMForSeverity]
      cases sec with
      | ok c2 =>
          cases hpc2 : parseSeverityContent c2 <;>
            simp [callNIMForSeverity, hpc2]
      | badFormat => simp [callNIMForSeverity]
      | httpError m => simp [callNIMForSeverity]
      | netError => simp [callNIMForSeverity]

/-- C5: a 401/403 observed by any backend call flips the sticky flag; with
the flag down, every subsequent analysis invocation of any kind makes zero
backend calls, leaves the flag down, and severity/category go straight to
the deterministic fallback; all other backend outcomes (timeout, malformed
response, other HTTP statuses, successful parses) leave the flag exactly
as it was, so a flag that is still up means the next invocation hits the
backend again. -/
theorem sticky_unavailability (st : Bool) (key text : String) (s : Nat)
    (p sec : NIMResult) (calls : List AnalysisCall)
    (hs401 : s ≠ 401) (hs403 : s ≠ 403) (hk : key ≠ "") (ht : text ≠ "") :
    updateAvailability st (.httpError 401) = false ∧
    updateAvailability st (.httpError 403) = false ∧
    updateAvailability st (.httpError s) = st ∧
    updateAvailability st .netError = st ∧
    updateAvailability st .badFormat = st ∧
    updateAvailability st (.ok text) = st ∧
    (analyzeSeverity key true text (.httpError 401) sec).nimApiAvailable
      = false ∧
    analyzeSeverity key false text p sec
      = ⟨false, analyzeSeverityFallback text, 0⟩ ∧
    analyzeCategory key false text p sec
      = ⟨false, analyzeCategoryFallback text, 0⟩ ∧
    1 ≤ (analyzeSeverity key true text p sec).backendCalls ∧
    (runCalls key false calls).1 = false ∧
    ∀ n ∈ (runCalls key false calls).2, n = 0 := by
  have hkb : (key == "") = false := by simpa using hk
  have htb : (text == "") = false := by simpa using ht
  refine ⟨rfl, rfl, ?_, rfl, rfl, rfl,
    analyzeSeverity_401_flag key text sec hkb htb, rfl, rfl,
    analyzeSeverity_backendCalls_pos key text p sec hkb htb,
    (runCalls_flag_down key calls).1, (runCalls_flag_down key calls).2⟩
  have h1 : (s == 401) = false := by simpa using hs401
  have h2 : (s == 403) = false := by simpa using hs403
  simp [updateAvailability, h1, h2]

/-- C5 witness: a concrete 401 on a severity call flips the flag at once. -/
theorem sticky_unavailability_witness :
    (analyzeSeverity "nim-key" true "database failure" (.httpError 401)
      .netError).nimApiAvailable = false :=
  (sticky_unavailability true "nim-key" "database failure" 500 .netError
    .netError [] (by decide) (by decide) (by decide) (by decide)).2.2.2.2.2.2.1

/-- The classification a backend answer yields for the severity task
(independent of the availability flag). -/
def severityResultOf : NIMResult → Option String
  | .ok c => parseSeverityContent c
  | _ => none

/-- The classification a backend answer yields for the category task. -/
def categoryResultOf : NIMResult → Option String
  | .ok c => parseCategoryContent c
  | _ => none

theorem analyzeSeverity_result_of_failures (key : String) (st : Bool)
    (text : String) (p sec : NIMResult)
    (hp : severityResultOf p = none) (hs : severityResultOf sec = none) :
    (analyzeSeverity key st text p sec).result
      = analyzeSeverityFallback text := by
  cases st with
  | false => rfl
  | true =>
      by_cases hk : (key == "") = true
      · simp [analyzeSeverity, hk]
      · have hkb : (key == "") = false := by simpa using hk
        by_cases htx : (text == "") = true
        · simp [analyzeSeverity, hkb, htx]
        · have htb : (text == "") = false := by simpa using htx
          simp only [analyzeSeverity, Bool.not_true, Bool.false_or, hkb,
            Bool.false_eq_true, if_false, htb]
          have hsec : ∀ st1 : Bool,
              (match callNIMForSeverity st1 sec with
                | (st2, some s) => (⟨st2, s, 2⟩ : CascadeOutcome)
                | (st2, none) =>
                    ⟨st2, analyzeSeverityFallback text, 2⟩).result
              = analyzeSeverityFallback text := by
            intro st1
            cases sec with
            | ok c2 =>
                simp only [severityResultOf] at hs
                simp [callNIMForSeverity, hs]
            | badFormat => simp [callNIMForSeverity]
            | httpError m => simp [callNIMForSeverity]
            | netError => simp [callNIMForSeverity]
          cases p with
          | ok c =>
              simp only [severityResultOf] at hp
              simp only [callNIMForSeverity, hp]
              exact hsec true
          | badFormat =>
              simp only [callNIMForSeverity]
              exact hsec true
          | httpError m =>
              simp only [callNIMForSeverity]
              exact hsec (updateAvailability true (.httpError m))
          | netError =>
              simp only [callNIMForSeverity]
              exact hsec true

theorem analyzeCategory_result_of_failures (key : String) (st : Bool)
    (text : String) (p sec : NIMResult)
    (hp : categoryResultOf p = none) (hs : categoryResultOf sec = none) :
    (analyzeCategory key st text p sec).result
      = analyzeCategoryFallback text := by
  cases st with
  | false => rfl
  | true =>
      by_cases hk : (key == "") = true
      · simp [analyzeCategory, hk]
      · have hkb : (key == "") = false := by simpa using hk
        by_cases htx : (text == "") = true
        · simp [analyzeCategory, hkb, htx]
        · have htb : (text == "") = false := by simpa using htx
          simp only [analyzeCategory, Bool.not_true, Bool.false_or, hkb,
            Bool.false_eq_true, if_false, htb]
          have hsec : ∀ st1 : Bool,
              (match callNIMForCategory st1 sec with
                | (st2, some s) => (⟨st2, s, 2⟩ : CascadeOutcome)
                | (st2, none) =>
                    ⟨st2, analyzeCategoryFallback text, 2⟩).result
              = analyzeCategoryFallback text := by
            intro st1
            cases sec with
            | ok c2 =>
                simp only [categoryResultOf] at hs
                simp [callNIMForCategory, hs]
            | badFormat => simp [callNIMForCategory]
            | httpError m => simp [callNIMForCategory]
            | netError => simp [callNIMForCategory]
          cases p with
          | ok c =>
              simp only [categoryResultOf] at hp
              simp only [callNIMForCategory, hp]
              exact hsec true
          | badFormat =>
              simp only [callNIMForCategory]
              exact hsec true
          | httpError m =>
              simp only [callNIMForCategory]
              exact hsec (updateAvailability true (.httpError m))
          | netError =>
              simp only [callNIMForCategory]
              exact hsec true

set_option maxHeartbeats 1000000 in
/-- C6: with every severity/category backend answer failing to parse (or
the backends skipped because the flag is down or no key is set), the
read-only analysis of an incident with sufficient text still returns a
complete result, whose severity and category are exactly the deterministic
case-insensitive keyword rules applied to the incident's text. -/
theorem fallback_analysis_complete (key : String) (st : Bool)
    (inc : Incident) (logs : List LogEntry) (env : BackendEnv) (now : Nat)
    (hlen : 10 ≤ (buildAnalysisText inc logs).length)
    (hsp : severityResultOf env.sevPrimary = none)
    (hss : severityResultOf env.sevSecondary = none)
    (hcp : categoryResultOf env.catPrimary = none)
    (hcs : categoryResultOf env.catSecondary = none) :
    (analyzeIncidentReadOnly key st inc logs env now).toOption.map
        (fun r => (r.aiSeverity, r.aiCategory))
      = some (analyzeSeverityFallback (buildAnalysisText inc logs),
              analyzeCategoryFallback (buildAnalysisText inc logs)) := by
  have htb : (buildAnalysisText inc logs == "") = false := by
    have : buildAnalysisText inc logs ≠ "" := by
      intro h
      rw [h] at hlen
      simp at hlen
    simpa using this
  unfold analyzeIncidentReadOnly
  rw [if_neg (by simp [htb]; omega)]
  simp only [Except.toOption, analysisOutcome]
  simp only [Option.map_some']
  refine congrArg some (Prod.ext ?_ ?_)
  · exact analyzeSeverity_result_of_failures key st
      (buildAnalysisText inc logs) env.sevPrimary env.sevSecondary hsp hss
  · exact analyzeCategory_result_of_failures key _
      (buildAnalysisText inc logs) env.catPrimary env.catSecondary hcp hcs

/-- A concrete incident with enough text for analysis. -/
def sampleAnalysisIncident : Incident :=
  { sampleIncidentOpen7 with title := "Database outage", description := "db queries failing" }

/-- C6 witness: with every backend call timing out, the analysis of a
concrete incident still succeeds with the keyword-rule severity and
category. -/
theorem fallback_analysis_complete_witness :
    (analyzeIncidentReadOnly "nim-key" true sampleAnalysisIncident []
        ⟨.netError, .netError, .netError, .netError, .netError, .netError⟩
        0).toOption.map (fun r => (r.aiSeverity, r.aiCategory))
      = some
          (analyzeSeverityFallback (buildAnalysisText sampleAnalysisIncident []),
           analyzeCategoryFallback (buildAnalysisText sampleAnalysisIncident [])) :=
  fallback_analysis_complete "nim-key" true sampleAnalysisIncident []
    ⟨.netError, .netError, .netError, .netError, .netError, .netError⟩ 0
    (by decide) (by decide) (by decide) (by decide) (by decide)

/-- The network/timeout root-cause template with its confidence constant. -/
def netTimeoutRule : String × Rat :=
  ("Network/Connection timeout - Possible network instability or resource exhaustion",
    (85 : Rat) / 100)

/-- C7: the root-cause fallback applies its rules in the fixed precedence
order timeout/connection → database → resource → authentication →
cascading-failure → unknown default, the first matching rule winning with
its fixed confidence constant; in particular, logs whose text contains
"database timeout" get the network/timeout rule's template (0.85), not the
database rule's. -/
theorem root_cause_fallback_precedence (logs : List LogEntry) :
    ((jsIncludes (logTextOf logs) "timeout"
        || jsIncludes (logTextOf logs) "connection") = true →
      analyzeRootCauseFallback logs = netTimeoutRule) ∧
    ((jsIncludes (logTextOf logs) "timeout"
        || jsIncludes (logTextOf logs) "connection") = false →
      (jsIncludes (logTextOf logs) "database" || jsIncludes (logTextOf logs) "db"
        || jsIncludes (logTextOf logs) "query") = true →
      analyzeRootCauseFallback logs
        = ("Database performance issue - Possible query optimization needed or connection pool exhaustion",
            (80 : Rat) / 100)) ∧
    ((jsIncludes (logTextOf logs) "timeout"
        || jsIncludes (logTextOf logs) "connection") = false →
      (jsIncludes (logTextOf logs) "database" || jsIncludes (logTextOf logs) "db"
        || jsIncludes (logTextOf logs) "query") = false →
      (jsIncludes (logTextOf logs) "cpu" || jsIncludes (logTextOf logs) "memory"
        || jsIncludes (logTextOf logs) "resource") = true →
      analyzeRootCauseFallback logs
        = ("Resource exhaustion - CPU or memory limits reached", (75 : Rat) / 100)) ∧
    ((jsIncludes (logTextOf logs) "timeout"
        || jsIncludes (logTextOf logs) "connection") = false →
      (jsIncludes (logTextOf logs) "database" || jsIncludes (logTextOf logs) "db"
        || jsIncludes (logTextOf logs) "query") = false →
      (jsIncludes (logTextOf logs) "cpu" || jsIncludes (logTextOf logs) "memory"
        || jsIncludes (logTextOf logs) "resource") = false →
      (jsIncludes (logTextOf logs) "auth"
        || jsIncludes (logTextOf logs) "authentication"
        || jsIncludes (logTextOf logs) "login") = true →
      analyzeRootCauseFallback logs
        = ("Authentication system failure - Possible credential issues or service outage",
            (70 : Rat) / 100)) ∧
    ((jsIncludes (logTextOf logs) "timeout"
        || jsIncludes (logTextOf logs) "connection") = false →
      (jsIncludes (logTextOf logs) "database" || jsIncludes (logTextOf logs) "db"
        || jsIncludes (logTextOf logs) "query") = false →
      (jsIncludes (logTextOf logs) "cpu" || jsIncludes (logTextOf logs) "memory"
        || jsIncludes (logTextOf logs) "resource") = false →
      (jsIncludes (logTextOf logs) "auth"
        || jsIncludes (logTextOf logs) "authentication"
        || jsIncludes (logTextOf logs) "login") = false →
      ((logs.filter (fun l => l.level == "warning")).length * 2
          < (logs.filter (fun l => l.level == "error")).length →
        analyzeRootCauseFallback logs
          = ("Cascading failures - Multiple error patterns detected",
              (65 : Rat) / 100)) ∧
      (¬ (logs.filter (fun l => l.level == "warning")).length * 2
          < (logs.filter (fun l => l.level == "error")).length →
        analyzeRootCauseFallback logs
          = ("Unknown - Insufficient data to determine root cause",
              (50 : Rat) / 100))) ∧
    analyzeRootCauseFallback [⟨1, "Database timeout detected", "error", 0⟩]
      = netTimeoutRule := by
  refine ⟨?_, ?_, ?_, ?_, ?_, ?_⟩
  · intro h1
    simp only [analyzeRootCauseFallback, h1, if_true, netTimeoutRule]
  · intro h1 h2
    simp only [analyzeRootCauseFallback, h1, h2, Bool.false_eq_true, if_false,
      if_true]
  · intro h1 h2 h3
    simp only [analyzeRootCauseFallback, h1, h2, h3, Bool.false_eq_true,
      if_false, if_true]
  · intro h1 h2 h3 h4
    simp only [analyzeRootCauseFallback, h1, h2, h3, h4, Bool.false_eq_true,
      if_false, if_true]
  · intro h1 h2 h3 h4
    constructor
    · intro h5
      simp only [analyzeRootCauseFallback, h1, h2, h3, h4, Bool.false_eq_true,
        if_false]
      rw [if_pos (by simpa using h5)]
    · intro h5
      simp only [analyzeRootCauseFallback, h1, h2, h3, h4, Bool.false_eq_true,
        if_false]
      rw [if_neg (by simpa using h5)]
  · rfl

/-- C7 witness: logs whose only message is "Database timeout detected" hit
the timeout/connection rule first. -/
theorem root_cause_fallback_precedence_witness :
    analyzeRootCauseFallback [⟨1, "Database timeout detected", "error", 0⟩]
      = netTimeoutRule :=
  (root_cause_fallback_precedence
    [⟨1, "Database timeout detected", "error", 0⟩]).1 (by decide)

/-- The spec's trailing-window error rate: `(error-level count)/(total
count)` over the logs within the last `windowMs` milliseconds, with the
code's `Math.max(count, 1)` guard for an empty window. -/
def errorRateWindow (now : Nat) (logs : List LogEntry) (windowMs : Nat) : Rat :=
  let window := logs.filter (fun l => now - l.createdAt < windowMs)
  ((window.filter (fun l => l.level == "error")).length : Rat)
    / ((max window.length 1 : Nat) : Rat)

theorem analyzeTrend_eq (now : Nat) (logs : List LogEntry)
    (h : ¬ logs.length < 3) :
    analyzeTrend now logs =
      ⟨decide (errorRateWindow now logs (15 * 60 * 1000)
            < errorRateWindow now logs (5 * 60 * 1000))
          && decide (errorRateWindow now logs (30 * 60 * 1000)
            < errorRateWindow now logs (15 * 60 * 1000)),
        if (decide (errorRateWindow now logs (15 * 60 * 1000)
              < errorRateWindow now logs (5 * 60 * 1000))
            && decide (errorRateWindow now logs (30 * 60 * 1000)
              < errorRateWindow now logs (15 * 60 * 1000))) = true
        then errorRateWindow now logs (5 * 60 * 1000)
          - errorRateWindow now logs (30 * 60 * 1000)
        else 0⟩ := by
  unfold analyzeTrend
  rw [if_neg h]
  rfl

/-- Twenty logs making the error rates 0.8 (5-minute window: 4 errors of
5 logs), 0.5 (15-minute window: 4 of 8) and 0.2 (30-minute window: 4 of
20) at `now = 1800000`. -/
def trendScenarioLogs : List LogEntry :=
  [⟨9, "e", "error", 1600000⟩, ⟨9, "e", "error", 1600000⟩,
   ⟨9, "e", "error", 1600000⟩, ⟨9, "e", "error", 1600000⟩,
   ⟨9, "i", "info", 1600000⟩,
   ⟨9, "i", "info", 1000000⟩, ⟨9, "i", "info", 1000000⟩,
   ⟨9, "i", "info", 1000000⟩,
   ⟨9, "i", "info", 500000⟩, ⟨9, "i", "info", 500000⟩,
   ⟨9, "i", "info", 500000⟩, ⟨9, "i", "info", 500000⟩,
   ⟨9, "i", "info", 500000⟩, ⟨9, "i", "info", 500000⟩,
   ⟨9, "i", "info", 500000⟩, ⟨9, "i", "info", 500000⟩,
   ⟨9, "i", "info", 500000⟩, ⟨9, "i", "info", 500000⟩,
   ⟨9, "i", "info", 500000⟩, ⟨9, "i", "info", 500000⟩]

/-- C8: with fewer than 3 logs the trend analyzer reports not-degrading
with rate 0; otherwise it is degrading iff the 5/15/30-minute error rates
strictly increase towards the present, and the degradation rate is
rate(5m) − rate(30m) when degrading, else 0; the 0.8 / 0.5 / 0.2 scenario
yields `isDegrading = true` and `degradationRate = 0.6`. -/
theorem analyzeTrend_spec (now : Nat) (logs : List LogEntry) :
    (logs.length < 3 → analyzeTrend now logs = ⟨false, 0⟩) ∧
    (3 ≤ logs.length →
      ((analyzeTrend now logs).isDegrading = true ↔
        (errorRateWindow now logs (15 * 60 * 1000)
            < errorRateWindow now logs (5 * 60 * 1000) ∧
         errorRateWindow now logs (30 * 60 * 1000)
            < errorRateWindow now logs (15 * 60 * 1000))) ∧
      (analyzeTrend now logs).degradationRate =
        (if errorRateWindow now logs (15 * 60 * 1000)
              < errorRateWindow now logs (5 * 60 * 1000) ∧
            errorRateWindow now logs (30 * 60 * 1000)
              < errorRateWindow now logs (15 * 60 * 1000)
         then errorRateWindow now logs (5 * 60 * 1000)
            - errorRateWindow now logs (30 * 60 * 1000)
         else 0)) ∧
    analyzeTrend 1800000 trendScenarioLogs = ⟨true, 3 / 5⟩ := by
  refine ⟨?_, ?_, ?_⟩
  · intro h
    unfold analyzeTrend
    rw [if_pos h]
  · intro h
    have hn : ¬ logs.length < 3 := by omega
    rw [analyzeTrend_eq now logs hn]
    constructor
    · simp [Bool.and_eq_true]
    · by_cases hd : (errorRateWindow now logs (15 * 60 * 1000)
            < errorRateWindow now logs (5 * 60 * 1000) ∧
          errorRateWindow now logs (30 * 60 * 1000)
            < errorRateWindow now logs (15 * 60 * 1000))
      · rw [if_pos hd]
        show (if _ = true then _ else _) = _
        rw [if_pos (by
          simp only [Bool.and_eq_true, decide_eq_true_eq]
          exact hd)]
      · rw [if_neg hd]
        show (if _ = true then _ else _) = _
        rw [if_neg (by
          simp only [Bool.and_eq_true, decide_eq_true_eq]
          exact hd)]
  · have hn : ¬ trendScenarioLogs.length < 3 := by decide
    rw [analyzeTrend_eq 1800000 trendScenarioLogs hn]
    have e5 : errorRateWindow 1800000 trendScenarioLogs (5 * 60 * 1000)
        = 4 / 5 := by
      simp [errorRateWindow, trendScenarioLogs]
    have e15 : errorRateWindow 1800000 trendScenarioLogs (15 * 60 * 1000)
        = 4 / 8 := by
      simp [errorRateWindow, trendScenarioLogs]
    have e30 : errorRateWindow 1800000 trendScenarioLogs (30 * 60 * 1000)
        = 4 / 20 := by
      simp [errorRateWindow, trendScenarioLogs]
    rw [e5, e15, e30]
    have hc : (decide ((4 : Rat) / 8 < 4 / 5)
        && decide ((4 : Rat) / 20 < 4 / 8)) = true := by
      rw [Bool.and_eq_true, decide_eq_true_eq, decide_eq_true_eq]
      norm_num
    rw [TrendResult.mk.injEq, hc]
    norm_num

/-- C8 witness: the short-list branch applied to an empty log list. -/
theorem analyzeTrend_spec_witness :
    analyzeTrend 0 [] = ⟨false, 0⟩ :=
  (analyzeTrend_spec 0 []).1 (by decide)

/-- Unwrap a successful PATCH, keeping the old state on failure (test
harness convenience for chaining route calls). -/
def patchOrSame (db : DB) (id : Nat) (newStatus : String) (now : Nat) : DB :=
  match patchStatus db id newStatus now with
  | .ok db2 => db2
  | _ => db

/-- C9 counterexample: resolve, reopen, resolve again.  The first PATCH
sets `resolvedAt = 100`; the reopen leaves the resolution fields in place
on an incident whose status is `open`; the second PATCH sets them again,
overwriting `resolvedAt` with 300 — so the fields are not set exactly
once. -/
theorem resolution_fields_set_twice_counterexample :
    (∃ i ∈ (patchOrSame sampleDB7 0 "resolved" 100).incidents,
      i.id = 0 ∧ i.resolvedAt = some 100 ∧ i.resolvedBy = some "engineer") ∧
    (∃ i ∈ (patchOrSame (patchOrSame sampleDB7 0 "resolved" 100)
        0 "open" 200).incidents,
      i.id = 0 ∧ i.status = "open" ∧ i.resolvedAt = some 100) ∧
    (∃ i ∈ (patchOrSame (patchOrSame (patchOrSame sampleDB7 0 "resolved" 100)
        0 "open" 200) 0 "resolved" 300).incidents,
      i.id = 0 ∧ i.resolvedAt = some 300 ∧ i.resolutionTime = some 300 ∧
      i.resolvedBy = some "engineer") := by
  decide

/-- C9 amended: the resolution fields are written exactly by the
transitions into a resolved-like status — the engineer PATCH when the new
status is `resolved` and the old one is not (`resolvedBy = "engineer"`),
and auto-resolution (`resolvedBy = "ai-auto"`) — each time with
`resolvedAt = now` and `resolutionTime = now − createdAt`; PATCHes to
`open`/`investigating` never touch them (but also never clear them, so
re-resolution overwrites them rather than their being set exactly
once). -/
theorem resolution_fields_on_transition (db : DB) (id : Nat) (now : Nat)
    (inc : Incident) (hfind : findIncident? db id = some inc) :
    (inc.status ≠ "resolved" →
      ∃ db2, patchStatus db id "resolved" now = .ok db2 ∧
        ∀ k ∈ db2.incidents, k.id = id →
          k.status = "resolved" ∧ k.resolvedAt = some now ∧
          k.resolutionTime = some (now - inc.createdAt) ∧
          k.resolvedBy = some "engineer") ∧
    (∀ s, s = "open" ∨ s = "investigating" →
      ∃ db2, patchStatus db id s now = .ok db2 ∧
        ∀ k ∈ db2.incidents, ∃ j ∈ db.incidents, j.id = k.id ∧
          k.resolvedAt = j.resolvedAt ∧
          k.resolutionTime = j.resolutionTime ∧
          k.resolvedBy = j.resolvedBy) ∧
    (∀ k ∈ (autoResolveIncident db inc now).incidents, k.id = inc.id →
      k.status = "auto-resolved" ∧ k.resolvedAt = some now ∧
      k.resolutionTime = some (now - inc.createdAt) ∧
      k.resolvedBy = some "ai-auto") := by
  refine ⟨?_, ?_, ?_⟩
  · intro hns
    have hnsb : (inc.status == "resolved") = false := by simpa using hns
    refine ⟨_, by simp only [patchStatus, hfind]; rfl, ?_⟩
    intro k hk hkid
    have hk2 : k ∈ (updateIncident db id (fun i =>
        let base :=
          { i with status := "resolved"
                   lastUpdatedAt := now
                   timeline := i.timeline ++
                     [⟨now, "status_change", "resolved", "engineer"⟩] }
        if ("resolved" == "resolved") && !(inc.status == "resolved") then
          { base with resolvedAt := some now
                      resolutionTime := some (now - inc.createdAt)
                      resolvedBy := some "engineer" }
        else base)).incidents := hk
    rcases List.mem_map.mp hk2 with ⟨j, hj, rfl⟩
    by_cases hc : j.id = id
    · simp only [hc, beq_self_eq_true, if_true, hnsb]
      exact ⟨rfl, rfl, rfl, rfl⟩
    · exact absurd (by simpa [hc] using hkid) hc
  · rintro s (rfl | rfl) <;>
    · refine ⟨_, by simp only [patchStatus, hfind]; rfl, ?_⟩
      intro k hk
      rcases List.mem_map.mp hk with ⟨j, hj, rfl⟩
      by_cases hc : j.id = id
      · refine ⟨j, hj, ?_, ?_, ?_, ?_⟩ <;> simp [hc]
      · refine ⟨j, hj, ?_, ?_, ?_, ?_⟩ <;> simp [hc]
  · intro k hk hkid
    have hk2 : k ∈ (updateIncident db inc.id (fun j =>
        { j with status := "auto-resolved"
                 resolvedAt := some now
                 resolutionTime := some (now - inc.createdAt)
                 resolvedBy := some "ai-auto"
                 timeline := j.timeline ++ [autoResolveEvent now]
                 lastUpdatedAt := now })).incidents := hk
    rcases List.mem_map.mp hk2 with ⟨j, hj, rfl⟩
    by_cases hc : j.id = inc.id
    · simp only [hc, beq_self_eq_true, if_true]
      simp
    · exact absurd (by simpa [hc] using hkid) hc

/-- C9 witness: a concrete first-time resolution sets the triple. -/
theorem resolution_fields_on_transition_witness :
    ∃ db2, patchStatus sampleDB7 0 "resolved" 100 = .ok db2 ∧
      ∀ k ∈ db2.incidents, k.id = 0 →
        k.status = "resolved" ∧ k.resolvedAt = some 100 ∧
        k.resolutionTime = some (100 - sampleIncidentOpen7.createdAt) ∧
        k.resolvedBy = some "engineer" :=
  (resolution_fields_on_transition sampleDB7 0 100 sampleIncidentOpen7
    (by decide)).1 (by decide)

/-- C10: with `ENABLE_RANDOM_EVENTS` set to `"false"` the cycle's random
step is a no-op; a synthetic event is never created while any incident
created within the previous 10 minutes exists; any created synthetic
incident is one of the three demo kinds and references no monitored
service; and with no recent incidents and a draw within the 10% band, one
is created. -/
theorem random_demo_events (envVar : Option String) (db : DB) (now : Nat)
    (rand : Rat) (pick : Fin 3) (cpuValue : Nat) :
    (envVar = some "false" →
      cycleRandomEventStep envVar db now rand pick cpuValue = db) ∧
    ((∃ i ∈ db.incidents, now - 10 * 60 * 1000 ≤ i.createdAt) →
      simulateSystemEvents db now rand pick cpuValue = db) ∧
    (∀ inc : Incident,
      (simulateSystemEvents db now rand pick cpuValue).incidents
          = db.incidents ++ [inc] →
      inc.serviceId = none ∧ inc.source = "system" ∧ inc.status = "open" ∧
      (inc.title = "High CPU usage detected" ∨
       inc.title = "Database timeout detected" ∨
       inc.title = "Authentication failures detected")) ∧
    (db.incidents = [] → rand ≤ 1 / 10 →
      ∃ inc : Incident,
        (simulateSystemEvents db now rand pick cpuValue).incidents
            = db.incidents ++ [inc] ∧ inc.serviceId = none) := by
  refine ⟨?_, ?_, ?_, ?_⟩
  · intro h
    subst h
    rfl
  · rintro ⟨i, hi, hle⟩
    unfold simulateSystemEvents
    rw [if_pos]
    exact List.length_pos.mpr (fun hnil => by
      have : i ∈ db.incidents.filter
          (fun i => decide (now - 10 * 60 * 1000 ≤ i.createdAt)) :=
        List.mem_filter.mpr ⟨hi, by simpa using hle⟩
      rw [hnil] at this
      exact absurd this (List.not_mem_nil i))
  · intro inc h
    unfold simulateSystemEvents at h
    by_cases h1 : 0 < (db.incidents.filter
        (fun i => decide (now - 10 * 60 * 1000 ≤ i.createdAt))).length
    · rw [if_pos h1] at h
      exact absurd h (by simp)
    · rw [if_neg h1] at h
      by_cases h2 : (1 : Rat) / 10 < rand
      · rw [if_pos h2] at h
        exact absurd h (by simp)
      · rw [if_neg h2] at h
        have h3 : db.incidents
            ++ [(syntheticIncident pick cpuValue now db.nextId).1]
            = db.incidents ++ [inc] := h
        have h4 : (syntheticIncident pick cpuValue now db.nextId).1 = inc := by
          have h5 := List.append_cancel_left h3
          simpa using h5
        rw [← h4]
        fin_cases pick <;> simp [syntheticIncident]
  · intro h0 hrand
    refine ⟨(syntheticIncident pick cpuValue now db.nextId).1, ?_, ?_⟩
    · unfold simulateSystemEvents
      rw [if_neg (by simp [h0]), if_neg (not_lt.mpr hrand)]
      rfl
    · fin_cases pick <;> simp [syntheticIncident]

/-- C10 witness: in an empty database with a draw inside the 10% band, a
synthetic incident with no service link is created. -/
theorem random_demo_events_witness :
    ∃ inc : Incident,
      (simulateSystemEvents ⟨[], [], 5⟩ 0 (1 / 10) 1 99).incidents
          = ([] : List Incident) ++ [inc] ∧ inc.serviceId = none :=
  (random_demo_events none ⟨[], [], 5⟩ 0 (1 / 10) 1 99).2.2.2 rfl
    (le_refl ((1 : Rat) / 10))

end IncidentAssistant
